import Mathlib

/-!
Shallow embedding of `src/model/model_zoo/resnext.py` (ResNeXt / SE-ResNeXt
architecture builder).  Layers are modelled as descriptors carrying the
hyperparameters the source passes to the framework's layer constructors;
blocks and networks are the lists of descriptors the source assembles.
Python float arithmetic on integer inputs is modelled by exact rational
arithmetic (ℚ).  The forward pass is modelled symbolically: applying a layer
to a tensor expression yields a new tensor expression, so theorems about
`forward` describe the exact dataflow the source wires up.
-/

/-- A layer descriptor: one framework layer as configured by the source.
`conv2d` fields follow the `nn.Conv2d` argument order
(in channels, out channels, kernel size, stride, padding, groups, bias);
`batchNorm2d` records the channel count and the initial value of the scale
(gamma) parameter (the framework default is 1; `nn.init.zeros_` sets 0). -/
inductive Layer where
  | conv2d (inCh outCh kernel stride padding groups : Nat) (bias : Bool)
  | batchNorm2d (ch gammaInit : Nat)
  | relu
  | maxPool2d (kernel stride padding : Nat)
  | sigmoid
deriving DecidableEq

/-- A bottleneck block: the `body` sequential, the optional `se` sequential
and the optional `downsample` sequential, exactly as `Block.__init__` builds
them. -/
structure Block where
  body : List Layer
  se : Option (List Layer)
  downsample : Option (List Layer)
deriving DecidableEq

/-- The source computes `D = int(math.floor(channels * (bottleneck_width / 64)))`
with Python float division; modelled with exact rationals. -/
def bottleneckD (channels bottleneck_width : Nat) : Nat :=
  (⌊(channels : ℚ) * ((bottleneck_width : ℚ) / 64)⌋).toNat

/-- `Block.__init__` from the source: main path, optional squeeze-and-excitation
sequential, optional downsample sequential. -/
def Block.make (in_channels channels cardinality bottleneck_width stride : Nat)
    (downsample last_gamma use_se : Bool) : Block :=
  let group_width := cardinality * bottleneckD channels bottleneck_width
  { body := [Layer.conv2d in_channels group_width 1 1 0 1 false,
             Layer.batchNorm2d group_width 1,
             Layer.relu,
             Layer.conv2d group_width group_width 3 stride 1 cardinality false,
             Layer.batchNorm2d group_width 1,
             Layer.relu,
             Layer.conv2d group_width (channels * 4) 1 1 0 1 false,
             Layer.batchNorm2d (channels * 4) (if last_gamma then 0 else 1)]
    se := if use_se then
            some [Layer.conv2d (channels * 4) (channels / 4) 1 1 0 1 true,
                  Layer.relu,
                  Layer.conv2d (channels / 4) (channels * 4) 1 1 0 1 true,
                  Layer.sigmoid]
          else none
    downsample := if downsample then
            some [Layer.conv2d in_channels (channels * 4) 1 stride 0 1 false,
                  Layer.batchNorm2d (channels * 4) 1]
          else none }

/-- Symbolic tensor expressions: the dataflow graph a forward pass builds.
`app` applies one layer, `avgPool1` is `F.adaptive_avg_pool2d(-, 1)`,
`reluF` is the functional `F.relu_`. -/
inductive TExpr where
  | input
  | app (l : Layer) (e : TExpr)
  | avgPool1 (e : TExpr)
  | mul (a b : TExpr)
  | add (a b : TExpr)
  | reluF (e : TExpr)
deriving DecidableEq

/-- Running a sequential container: apply its layers in order. -/
def applySeq (layers : List Layer) (x : TExpr) : TExpr :=
  layers.foldl (fun e l => TExpr.app l e) x

/-- `Block.forward` from the source.  (The source guards with Python
truthiness `if self.se:` / `if self.downsample:`; the sequentials are
non-empty whenever present, so this is exactly the `Option` test.) -/
def Block.forward (b : Block) (x : TExpr) : TExpr :=
  let residual := x
  let x1 := applySeq b.body x
  let x2 := match b.se with
    | some s => TExpr.mul x1 (applySeq s (TExpr.avgPool1 x1))
    | none => x1
  let residual2 := match b.downsample with
    | some ds => applySeq ds residual
    | none => residual
  TExpr.reluF (TExpr.add x2 residual2)

/-- First convolution's input channel count of a block's main path. -/
def Block.inChannels (b : Block) : Option Nat :=
  match b.body with
  | Layer.conv2d i _ _ _ _ _ _ :: _ => some i
  | _ => none

/-- Channel count of the final normalization of a block's main path
(the block's output channel count). -/
def Block.outChannels (b : Block) : Option Nat :=
  match b.body.getLast? with
  | some (Layer.batchNorm2d ch _) => some ch
  | _ => none

/-- Stride of the 3×3 grouped convolution (the block's spatial stride). -/
def Block.mainStride (b : Block) : Option Nat :=
  match b.body with
  | _ :: _ :: _ :: Layer.conv2d _ _ _ s _ _ _ :: _ => some s
  | _ => none

/-- Initial gamma of the final normalization of a block's main path. -/
def Block.lastGammaInit (b : Block) : Option Nat :=
  match b.body.getLast? with
  | some (Layer.batchNorm2d _ g) => some g
  | _ => none

/-- Output channel count of the first squeeze-and-excitation convolution
(the reduced descriptor width), when the block has an SE path. -/
def Block.seReduceOut (b : Block) : Option Nat :=
  match b.se with
  | some (Layer.conv2d _ outCh _ _ _ _ _ :: _) => some outCh
  | _ => none

/-- One `features` entry of the network: either a plain stem layer or a
whole stage (a sequential of blocks). -/
inductive Feature where
  | layer (l : Layer)
  | stage (s : List Block)
deriving DecidableEq

/-- Selector for stage entries of the `features` list. -/
def Feature.stage? : Feature → Option (List Block)
  | Feature.stage s => some s
  | Feature.layer _ => none

/-- `ResNext._make_layer` from the source: first block with the stage's
stride and `downsample=True`, then `num_layers - 1` stride-1 blocks with
`downsample=False`. -/
def make_layer (cardinality bottleneck_width in_channels channels num_layers stride : Nat)
    (last_gamma use_se : Bool) : List Block :=
  Block.make in_channels channels cardinality bottleneck_width stride true last_gamma use_se
    :: List.replicate (num_layers - 1)
        (Block.make (channels * 4) channels cardinality bottleneck_width 1 false last_gamma use_se)

/-- The stage-construction loop of `ResNext.__init__`: walks the per-stage
block counts tracking `in_channels`, `channels` and the loop index `i`,
returning the stages and the final running `in_channels`. -/
def mkStages (cardinality bottleneck_width : Nat) (last_gamma use_se : Bool) :
    List Nat → Nat → Nat → Nat → List (List Block) × Nat
  | [], in_channels, _channels, _i => ([], in_channels)
  | num_layer :: rest, in_channels, channels, i =>
    let stride := if i = 0 then 1 else 2
    let st := make_layer cardinality bottleneck_width in_channels channels num_layer stride
        last_gamma use_se
    let in2 := if i = 0 then in_channels * 4 else in_channels * 2
    let r := mkStages cardinality bottleneck_width last_gamma use_se rest in2 (channels * 2) (i + 1)
    (st :: r.1, r.2)

/-- The constructed network: the `features` sequential (stem layers followed
by the stages) and the final linear head `output` (input width, classes). -/
structure ResNext where
  cardinality : Nat
  bottleneck_width : Nat
  features : List Feature
  output : Nat × Nat
deriving DecidableEq

/-- `ResNext.__init__` from the source. -/
def ResNext.build (layers : List Nat) (cardinality bottleneck_width classes : Nat)
    (last_gamma use_se : Bool) : ResNext :=
  let r := mkStages cardinality bottleneck_width last_gamma use_se layers 64 64 0
  { cardinality := cardinality
    bottleneck_width := bottleneck_width
    features :=
      Feature.layer (Layer.conv2d 3 64 7 2 3 1 false)
        :: Feature.layer (Layer.batchNorm2d 64 1)
        :: Feature.layer Layer.relu
        :: Feature.layer (Layer.maxPool2d 3 2 1)
        :: r.1.map Feature.stage
    output := (r.2, classes) }

/-- The stages of a constructed network, in order. -/
def ResNext.stages (net : ResNext) : List (List Block) :=
  net.features.filterMap Feature.stage?

/-- Number of stages of a constructed network. -/
def ResNext.numStages (net : ResNext) : Nat :=
  net.stages.length

/-- All blocks of a constructed network, in order. -/
def ResNext.blocks (net : ResNext) : List Block :=
  net.stages.flatten

/-- Per-stage input channel count (first conv of the stage's first block). -/
def ResNext.stageInChannels (net : ResNext) : List (Option Nat) :=
  net.stages.map fun st => st.head?.bind Block.inChannels

/-- Per-stage output channel count (final normalization of the stage's
first block). -/
def ResNext.stageOutChannels (net : ResNext) : List (Option Nat) :=
  net.stages.map fun st => st.head?.bind Block.outChannels

/-- The preset table `resnext_spec` from the source. -/
def resnext_spec : List (Nat × List Nat) :=
  [(50, [3, 4, 6, 3]), (101, [3, 4, 23, 3])]

/-- Build errors: the failed depth-preset assertion of `get_resnext`
(carrying the offending depth and the valid options it reports), and the
shape-mismatch failure of weight loading. -/
inductive BuildError where
  | configurationError (num_layers : Nat) (options : List Nat)
  | shapeMismatchError
deriving DecidableEq

/-- The keyword arguments forwarded by the named constructors: `use_se` is
`none` when the caller did not pass the flag; `classes` and `last_gamma`
default to 1000 and false in `ResNext.__init__`. -/
structure Kwargs where
  use_se : Option Bool
  classes : Nat
  last_gamma : Bool
deriving DecidableEq

/-- `get_resnext` from the source: validate the depth preset against
`resnext_spec`, then construct the network.  (The pretrained-weight loading
branch is modelled separately by `load_state_dict`.) -/
def get_resnext (num_layers cardinality bottleneck_width : Nat) (kw : Kwargs) :
    Except BuildError ResNext :=
  match List.lookup num_layers resnext_spec with
  | none =>
      Except.error (BuildError.configurationError num_layers (resnext_spec.map Prod.fst))
  | some layers =>
      Except.ok (ResNext.build layers cardinality bottleneck_width kw.classes kw.last_gamma
        (kw.use_se.getD false))

/-- `resnext50_32x4d` from the source: forcibly sets `use_se` to false in the
forwarded keyword arguments. -/
def resnext50_32x4d (kw : Kwargs) : Except BuildError ResNext :=
  get_resnext 50 32 4 { kw with use_se := some false }

/-- `resnext101_32x4d` from the source. -/
def resnext101_32x4d (kw : Kwargs) : Except BuildError ResNext :=
  get_resnext 101 32 4 { kw with use_se := some false }

/-- `resnext101_64x4d` from the source. -/
def resnext101_64x4d (kw : Kwargs) : Except BuildError ResNext :=
  get_resnext 101 64 4 { kw with use_se := some false }

/-- `se_resnext50_32x4d` from the source: forcibly sets `use_se` to true. -/
def se_resnext50_32x4d (kw : Kwargs) : Except BuildError ResNext :=
  get_resnext 50 32 4 { kw with use_se := some true }

/-- `se_resnext101_32x4d` from the source. -/
def se_resnext101_32x4d (kw : Kwargs) : Except BuildError ResNext :=
  get_resnext 101 32 4 { kw with use_se := some true }

/-- `se_resnext101_64x4d` from the source. -/
def se_resnext101_64x4d (kw : Kwargs) : Except BuildError ResNext :=
  get_resnext 101 64 4 { kw with use_se := some true }

/-- One serialized parameter: its shape and its (flattened) entries. -/
structure Param where
  shape : List Nat
  values : List Int
deriving DecidableEq

/-- Modelled from the spec: the pretrained-weight loading performed by the
external framework's `load_state_dict`, whose code is not part of this
repository.  Per the spec, loading "fails if any layer's expected parameter
shape does not match the serialized shape exactly (ShapeMismatchError)" and
a failed load "leaves the graph's existing parameters unchanged": all shapes
are checked, and values are copied only when every shape matches. -/
def load_state_dict (params blob : List (String × Param)) :
    Except BuildError (List (String × Param)) :=
  if params.all (fun np =>
      match List.lookup np.1 blob with
      | some q => np.2.shape == q.shape
      | none => true) then
    Except.ok (params.map fun np =>
      match List.lookup np.1 blob with
      | some q => (np.1, q)
      | none => np)
  else
    Except.error BuildError.shapeMismatchError

/-- The parameters a graph holds after a load attempt: the loaded values on
success, the untouched originals on error. -/
def applyLoad (params blob : List (String × Param)) : List (String × Param) :=
  match load_state_dict params blob with
  | Except.ok r => r
  | Except.error _ => params

/-- The per-stage invariant of claim C4: the stage is non-empty, its first
block has a downsample path and changed channels or stride, and every later
block has stride 1 and no downsample path. -/
def StageProp (st : List Block) : Prop :=
  ∃ b rest, st = b :: rest
    ∧ b.downsample ≠ none
    ∧ (b.inChannels ≠ b.outChannels ∨ b.mainStride ≠ some 1)
    ∧ ∀ b2 ∈ rest, b2.downsample = none ∧ b2.mainStride = some 1

/-! ### Helper lemmas -/

/-- Exact-arithmetic value of the source's
`int(math.floor(channels * (bottleneck_width / 64)))`: it is the natural
floor division `channels * bottleneck_width / 64`. -/
theorem bottleneckD_eq (ch bw : Nat) : bottleneckD ch bw = ch * bw / 64 := by
  have h : (ch : ℚ) * ((bw : ℚ) / 64) = ((ch * bw : ℕ) : ℚ) / ((64 : ℕ) : ℚ) := by
    push_cast
    ring
  rw [bottleneckD, h, Int.floor_toNat, Nat.floor_div_nat, Nat.floor_natCast]

theorem make_inChannels (inC ch c bw s : Nat) (d lg u : Bool) :
    (Block.make inC ch c bw s d lg u).inChannels = some inC := rfl

theorem make_outChannels (inC ch c bw s : Nat) (d lg u : Bool) :
    (Block.make inC ch c bw s d lg u).outChannels = some (ch * 4) := rfl

theorem make_mainStride (inC ch c bw s : Nat) (d lg u : Bool) :
    (Block.make inC ch c bw s d lg u).mainStride = some s := rfl

theorem make_lastGammaInit (inC ch c bw s : Nat) (d lg u : Bool) :
    (Block.make inC ch c bw s d lg u).lastGammaInit = some (if lg then 0 else 1) := rfl

theorem make_downsample (inC ch c bw s : Nat) (d lg u : Bool) :
    (Block.make inC ch c bw s d lg u).downsample =
      if d then some [Layer.conv2d inC (ch * 4) 1 s 0 1 false,
                      Layer.batchNorm2d (ch * 4) 1]
      else none := rfl

theorem make_se (inC ch c bw s : Nat) (d lg u : Bool) :
    (Block.make inC ch c bw s d lg u).se =
      if u then some [Layer.conv2d (ch * 4) (ch / 4) 1 1 0 1 true,
                      Layer.relu,
                      Layer.conv2d (ch / 4) (ch * 4) 1 1 0 1 true,
                      Layer.sigmoid]
      else none := rfl

theorem mem_make_layer (c bw inC ch n s : Nat) (lg se : Bool) (b : Block)
    (hb : b ∈ make_layer c bw inC ch n s lg se) :
    b = Block.make inC ch c bw s true lg se ∨ b = Block.make (ch * 4) ch c bw 1 false lg se := by
  rcases List.mem_cons.mp hb with h | h
  · exact Or.inl h
  · exact Or.inr (List.eq_of_mem_replicate h)

theorem filterMap_stage (l : List (List Block)) :
    List.filterMap (Feature.stage? ∘ Feature.stage) l = l := by
  induction l with
  | nil => rfl
  | cons a t ih => simp [Function.comp, Feature.stage?, ih]

theorem stages_build (layers : List Nat) (c bw cls : Nat) (lg se : Bool) :
    (ResNext.build layers c bw cls lg se).stages =
      (mkStages c bw lg se layers 64 64 0).1 := by
  show List.filterMap Feature.stage? _ = _
  simp [ResNext.build, List.filterMap_cons, Feature.stage?, filterMap_stage]

theorem mkStages_length (c bw : Nat) (lg se : Bool) (layers : List Nat) :
    ∀ (inC ch i : Nat), (mkStages c bw lg se layers inC ch i).1.length = layers.length := by
  induction layers with
  | nil => intro inC ch i; rfl
  | cons n rest ih => intro inC ch i; simp [mkStages, ih]

theorem numStages_build (layers : List Nat) (c bw cls : Nat) (lg se : Bool) :
    (ResNext.build layers c bw cls lg se).numStages = layers.length := by
  rw [ResNext.numStages, stages_build, mkStages_length]

theorem mem_mkStages_shape (c bw : Nat) (lg se : Bool) (layers : List Nat) :
    ∀ (inC ch i : Nat), ∀ st ∈ (mkStages c bw lg se layers inC ch i).1,
      ∃ a d n s, st = make_layer c bw a d n s lg se := by
  induction layers with
  | nil => intro inC ch i st hst; simp [mkStages] at hst
  | cons n rest ih =>
      intro inC ch i st hst
      simp only [mkStages] at hst
      rcases List.mem_cons.mp hst with h | h
      · exact ⟨inC, ch, n, if i = 0 then 1 else 2, h⟩
      · exact ih _ _ (i + 1) st h

theorem mem_blocks_build (layers : List Nat) (c bw cls : Nat) (lg se : Bool) (b : Block)
    (hb : b ∈ (ResNext.build layers c bw cls lg se).blocks) :
    ∃ a d s ds, b = Block.make a d c bw s ds lg se := by
  rw [ResNext.blocks, stages_build] at hb
  rcases List.mem_flatten.mp hb with ⟨st, hst, hbst⟩
  obtain ⟨a, d, n, s, rfl⟩ := mem_mkStages_shape c bw lg se layers 64 64 0 st hst
  rcases mem_make_layer c bw a d n s lg se b hbst with h | h
  · exact ⟨a, d, s, true, h⟩
  · exact ⟨d * 4, d, 1, false, h⟩

theorem mkStages_stageProp (c bw : Nat) (lg se : Bool) (layers : List Nat) :
    ∀ (inC ch i : Nat), (i = 0 → inC = 64 ∧ ch = 64) →
      ∀ st ∈ (mkStages c bw lg se layers inC ch i).1, StageProp st := by
  induction layers with
  | nil => intro inC ch i _ st hst; simp [mkStages] at hst
  | cons n rest ih =>
      intro inC ch i h st hst
      simp only [mkStages] at hst
      rcases List.mem_cons.mp hst with h1 | h2
      · subst h1
        refine ⟨Block.make inC ch c bw (if i = 0 then 1 else 2) true lg se,
                List.replicate (n - 1) (Block.make (ch * 4) ch c bw 1 false lg se),
                rfl, ?_, ?_, ?_⟩
        · simp [make_downsample]
        · by_cases hi : i = 0
          · obtain ⟨hin, hch⟩ := h hi
            subst hin
            subst hch
            left
            simp [make_inChannels, make_outChannels]
          · right
            simp [make_mainStride, hi]
        · intro b2 hb2
          have hb2eq := List.eq_of_mem_replicate hb2
          subst hb2eq
          exact ⟨by simp [make_downsample], make_mainStride _ _ _ _ _ _ _ _⟩
      · exact ih _ _ (i + 1) (by simp) st h2

theorem mkStages_strides (c bw : Nat) (lg se : Bool) (layers : List Nat) :
    ∀ (inC ch i : Nat),
      (mkStages c bw lg se layers inC ch i).1.map (fun st => st.head?.bind Block.mainStride)
        = (List.range layers.length).map (fun j => some (if i + j = 0 then 1 else 2)) := by
  induction layers with
  | nil => intro inC ch i; rfl
  | cons n rest ih =>
      intro inC ch i
      simp only [mkStages, List.map_cons, List.length_cons, List.range_succ_eq_map,
        List.map_map]
      congr 1
      rw [ih _ _ (i + 1)]
      apply List.map_congr_left
      intro j _
      have hj : i + 1 + j = i + Nat.succ j := by omega
      simp [Function.comp, hj]

/-! ### Claim theorems -/

/-- C1 (counterexample): the claim says the first squeeze-and-excitation
convolution reduces from output_channels to output_channels/4.  For an SE
block with channels = 64 (output_channels = 256) the code reduces to
channels/4 = 16, not (64*4)/4 = 64. -/
theorem C1_counterexample :
    (Block.make 64 64 32 4 1 false false true).seReduceOut = some 16
    ∧ (64 * 4) / 4 ≠ 16 := by
  exact ⟨rfl, by decide⟩

/-- C1 (amended): for every block built with use_se enabled, the SE gate is
a global average reduction of the main path's output, a 1×1 convolution
reducing from output_channels to channels/4 (that is, output_channels/16),
an activation, a 1×1 convolution expanding back to output_channels, and a
sigmoid, whose result elementwise-multiplies the main path's output. -/
theorem C1_se_gate (inC ch c bw s : Nat) (d lg : Bool) (x : TExpr) :
    (Block.make inC ch c bw s d lg true).se
        = some [Layer.conv2d (ch * 4) (ch / 4) 1 1 0 1 true, Layer.relu,
                Layer.conv2d (ch / 4) (ch * 4) 1 1 0 1 true, Layer.sigmoid]
    ∧ Block.forward (Block.make inC ch c bw s d lg true) x
        = TExpr.reluF (TExpr.add
            (TExpr.mul (applySeq (Block.make inC ch c bw s d lg true).body x)
              (applySeq [Layer.conv2d (ch * 4) (ch / 4) 1 1 0 1 true, Layer.relu,
                         Layer.conv2d (ch / 4) (ch * 4) 1 1 0 1 true, Layer.sigmoid]
                (TExpr.avgPool1 (applySeq (Block.make inC ch c bw s d lg true).body x))))
            (if d then
              TExpr.app (Layer.batchNorm2d (ch * 4) 1)
                (TExpr.app (Layer.conv2d inC (ch * 4) 1 s 0 1 false) x)
             else x)) := by
  cases d <;> exact ⟨rfl, rfl⟩

/-- C2: for the 50-layer configuration with base width 64, the per-stage
input widths are 64, 256, 512, 1024 (stage 0 quadruples the running input
width, later stages double it), the per-stage output channel counts are
256, 512, 1024, 2048 (base width doubling each stage), and the running
width after the last stage is 2048. -/
theorem C2_channel_progression (c bw cls : Nat) (lg se : Bool) :
    (ResNext.build [3, 4, 6, 3] c bw cls lg se).stageInChannels
        = [some 64, some 256, some 512, some 1024]
    ∧ (ResNext.build [3, 4, 6, 3] c bw cls lg se).stageOutChannels
        = [some 256, some 512, some 1024, some 2048]
    ∧ (ResNext.build [3, 4, 6, 3] c bw cls lg se).output.1 = 2048 :=
  ⟨rfl, rfl, rfl⟩

/-- C3: for every depth not in the preset table (equivalently, not 50 and
not 101), get_resnext fails with a configuration error listing the valid
options 50 and 101; for every depth in the table, construction succeeds and
the stage count equals the length of the preset's block-count list. -/
theorem C3_config_error (n c bw : Nat) (kw : Kwargs) :
    (List.lookup n resnext_spec = none ↔ n ≠ 50 ∧ n ≠ 101)
    ∧ (List.lookup n resnext_spec = none →
        get_resnext n c bw kw
          = Except.error (BuildError.configurationError n [50, 101]))
    ∧ ∀ ls, List.lookup n resnext_spec = some ls →
        ∃ net, get_resnext n c bw kw = Except.ok net ∧ net.numStages = ls.length := by
  refine ⟨?_, ?_, ?_⟩
  · by_cases h50 : n = 50
    · subst h50; simp [resnext_spec, List.lookup]
    · by_cases h101 : n = 101
      · subst h101; simp [resnext_spec, List.lookup]
      · have e50 : (n == 50) = false := beq_eq_false_iff_ne.mpr h50
        have e101 : (n == 101) = false := beq_eq_false_iff_ne.mpr h101
        simp [resnext_spec, List.lookup, e50, e101, h50, h101]
  · intro h
    unfold get_resnext
    rw [h]
    rfl
  · intro ls h
    unfold get_resnext
    rw [h]
    exact ⟨_, rfl, numStages_build ls c bw kw.classes kw.last_gamma (kw.use_se.getD false)⟩

/-- C3 (witness): at depth 34 get_resnext fails with the configuration
error; at depth 50 it succeeds with 4 stages. -/
theorem C3_config_error_witness :
    get_resnext 34 32 4 (Kwargs.mk none 1000 false)
        = Except.error (BuildError.configurationError 34 [50, 101])
    ∧ ∃ net, get_resnext 50 32 4 (Kwargs.mk none 1000 false) = Except.ok net
        ∧ net.numStages = 4 :=
  ⟨(C3_config_error 34 32 4 (Kwargs.mk none 1000 false)).2.1 (by decide),
   (C3_config_error 50 32 4 (Kwargs.mk none 1000 false)).2.2 [3, 4, 6, 3] (by decide)⟩

/-- C4: every stage emitted by the builder starts with a block that has a
downsample path and changed channel counts or stride, and every later block
of the stage has stride 1 and no downsample path. -/
theorem C4_downsample (layers : List Nat) (c bw cls : Nat) (lg se : Bool) (st : List Block)
    (hst : st ∈ (ResNext.build layers c bw cls lg se).stages) :
    StageProp st := by
  rw [stages_build] at hst
  exact mkStages_stageProp c bw lg se layers 64 64 0 (fun _ => ⟨rfl, rfl⟩) st hst

/-- C4 (witness): the first stage of the 50-layer build satisfies the
stage invariant. -/
theorem C4_downsample_witness :
    StageProp (make_layer 32 4 64 64 3 1 false false) :=
  C4_downsample [3, 4, 6, 3] 32 4 10 false false
    (make_layer 32 4 64 64 3 1 false false) (List.mem_cons_self _ _)

/-- C5: the builder emits the stem sublayers in exactly this order — a 7×7
stride-2 convolution from 3 to 64 channels with no bias, a normalization, an
activation, a 3×3 stride-2 max pooling — followed by the stages, and stage i
gets stride 1 if i = 0 and stride 2 otherwise. -/
theorem C5_stem_and_strides (layers : List Nat) (c bw cls : Nat) (lg se : Bool) :
    (ResNext.build layers c bw cls lg se).features
        = Feature.layer (Layer.conv2d 3 64 7 2 3 1 false)
          :: Feature.layer (Layer.batchNorm2d 64 1)
          :: Feature.layer Layer.relu
          :: Feature.layer (Layer.maxPool2d 3 2 1)
          :: ((ResNext.build layers c bw cls lg se).stages.map Feature.stage)
    ∧ (ResNext.build layers c bw cls lg se).stages.map
          (fun st => st.head?.bind Block.mainStride)
        = (List.range layers.length).map (fun i => some (if i = 0 then 1 else 2)) := by
  constructor
  · rw [stages_build]
    rfl
  · rw [stages_build, mkStages_strides]
    simp

/-- C6: the main path of every block is exactly a 1×1 bias-free projection
to group_width, normalization, activation, a 3×3 bias-free grouped
convolution at the block's stride with cardinality groups keeping
group_width channels, normalization, activation, a 1×1 bias-free expansion
to channels*4, and a final normalization, where
group_width = cardinality * (channels * bottleneck_width / 64). -/
theorem C6_main_path (inC ch c bw s : Nat) (d lg u : Bool) :
    (Block.make inC ch c bw s d lg u).body =
      [Layer.conv2d inC (c * (ch * bw / 64)) 1 1 0 1 false,
       Layer.batchNorm2d (c * (ch * bw / 64)) 1,
       Layer.relu,
       Layer.conv2d (c * (ch * bw / 64)) (c * (ch * bw / 64)) 3 s 1 c false,
       Layer.batchNorm2d (c * (ch * bw / 64)) 1,
       Layer.relu,
       Layer.conv2d (c * (ch * bw / 64)) (ch * 4) 1 1 0 1 false,
       Layer.batchNorm2d (ch * 4) (if lg then 0 else 1)] := by
  simp only [Block.make, bottleneckD_eq]

/-- C7: immediately after construction, the scale (gamma) of the final
normalization of every bottleneck block of the built network is 0 when
last_gamma is true and the framework default 1 (not zero) otherwise. -/
theorem C7_zero_init (layers : List Nat) (c bw cls : Nat) (lg se : Bool) (b : Block)
    (hb : b ∈ (ResNext.build layers c bw cls lg se).blocks) :
    b.lastGammaInit = some (if lg then 0 else 1) := by
  obtain ⟨a, d, s, ds, rfl⟩ := mem_blocks_build layers c bw cls lg se b hb
  exact make_lastGammaInit a d c bw s ds lg se

/-- C7 (witness): the first block of the 50-layer build with last_gamma set
has gamma 0. -/
theorem C7_zero_init_witness :
    (Block.make 64 64 1 64 1 true true false).lastGammaInit = some 0 :=
  C7_zero_init [3, 4, 6, 3] 1 64 10 true false
    (Block.make 64 64 1 64 1 true true false) (List.mem_cons_self _ _)

/-- C8: every block's output is the elementwise sum of the (possibly
SE-gated) main path and the shortcut path — the original input when there is
no downsample path, otherwise a 1×1 bias-free stride-s convolution to
channels*4 followed by normalization applied to the original input — with
the non-negative clamp applied after the sum. -/
theorem C8_residual_rule (inC ch c bw s : Nat) (d lg u : Bool) (x : TExpr) :
    Block.forward (Block.make inC ch c bw s d lg u) x =
      TExpr.reluF (TExpr.add
        (if u then
          TExpr.mul (applySeq (Block.make inC ch c bw s d lg u).body x)
            (applySeq [Layer.conv2d (ch * 4) (ch / 4) 1 1 0 1 true, Layer.relu,
                       Layer.conv2d (ch / 4) (ch * 4) 1 1 0 1 true, Layer.sigmoid]
              (TExpr.avgPool1 (applySeq (Block.make inC ch c bw s d lg u).body x)))
         else applySeq (Block.make inC ch c bw s d lg u).body x)
        (if d then
          TExpr.app (Layer.batchNorm2d (ch * 4) 1)
            (TExpr.app (Layer.conv2d inC (ch * 4) 1 s 0 1 false) x)
         else x)) := by
  cases u <;> cases d <;> rfl

/-- C9: if any parameter's shape differs from the corresponding serialized
shape, loading fails with the shape-mismatch error and the graph's
parameters are left unchanged (no partial update). -/
theorem C9_shape_mismatch (params blob : List (String × Param)) (n : String) (p q : Param)
    (hp : (n, p) ∈ params) (hq : List.lookup n blob = some q)
    (hne : p.shape ≠ q.shape) :
    load_state_dict params blob = Except.error BuildError.shapeMismatchError
    ∧ applyLoad params blob = params := by
  have hall : (params.all fun np =>
      match List.lookup np.1 blob with
      | some q => np.2.shape == q.shape
      | none => true) = false := by
    rcases hc : params.all fun np =>
        match List.lookup np.1 blob with
        | some q => np.2.shape == q.shape
        | none => true with _ | _
    · rfl
    · have h2 := List.all_eq_true.mp hc (n, p) hp
      rw [hq] at h2
      have h3 : (p.shape == q.shape) = true := h2
      exact absurd (eq_of_beq h3) hne
  have he : load_state_dict params blob = Except.error BuildError.shapeMismatchError := by
    unfold load_state_dict
    rw [hall]
    rfl
  exact ⟨he, by rw [applyLoad, he]⟩

/-- C9 (witness): a one-parameter graph and a blob with a different shape
for that parameter: loading errors and the parameter list is unchanged. -/
theorem C9_shape_mismatch_witness :
    load_state_dict [("w", Param.mk [2] [1, 2])] [("w", Param.mk [3] [1, 2, 3])]
        = Except.error BuildError.shapeMismatchError
    ∧ applyLoad [("w", Param.mk [2] [1, 2])] [("w", Param.mk [3] [1, 2, 3])]
        = [("w", Param.mk [2] [1, 2])] :=
  C9_shape_mismatch [("w", Param.mk [2] [1, 2])] [("w", Param.mk [3] [1, 2, 3])]
    "w" (Param.mk [2] [1, 2]) (Param.mk [3] [1, 2, 3])
    (List.mem_cons_self _ _) (by decide) (by decide)

/-- C10: the three plain preset constructors build with use_se = false and
the three SE preset constructors with use_se = true, regardless of any
use_se value in the caller-supplied keyword arguments: every block of a
plain constructor's network has no SE path, every block of an SE
constructor's network has one. -/
theorem C10_use_se_override (kw : Kwargs) (net : ResNext) :
    (resnext50_32x4d kw = Except.ok net → ∀ b ∈ net.blocks, b.se = none)
    ∧ (resnext101_32x4d kw = Except.ok net → ∀ b ∈ net.blocks, b.se = none)
    ∧ (resnext101_64x4d kw = Except.ok net → ∀ b ∈ net.blocks, b.se = none)
    ∧ (se_resnext50_32x4d kw = Except.ok net → ∀ b ∈ net.blocks, b.se ≠ none)
    ∧ (se_resnext101_32x4d kw = Except.ok net → ∀ b ∈ net.blocks, b.se ≠ none)
    ∧ (se_resnext101_64x4d kw = Except.ok net → ∀ b ∈ net.blocks, b.se ≠ none) := by
  refine ⟨?_, ?_, ?_, ?_, ?_, ?_⟩ <;>
    · intro h b hb
      injection h with h
      subst h
      obtain ⟨a, d, s, ds, rfl⟩ := mem_blocks_build _ _ _ _ _ _ b hb
      simp [make_se]

/-- C10 (witness): the plain 50-layer constructor called with use_se = true
still yields a network whose first block has no SE path, and the SE 50-layer
constructor called with use_se = false yields one whose first block has an
SE path. -/
theorem C10_use_se_override_witness :
    resnext50_32x4d (Kwargs.mk (some true) 10 false)
        = Except.ok (ResNext.build [3, 4, 6, 3] 32 4 10 false false)
    ∧ (Block.make 64 64 32 4 1 true false false).se = none
    ∧ se_resnext50_32x4d (Kwargs.mk (some false) 10 false)
        = Except.ok (ResNext.build [3, 4, 6, 3] 32 4 10 false true)
    ∧ (Block.make 64 64 32 4 1 true false true).se ≠ none :=
  ⟨rfl,
   (C10_use_se_override (Kwargs.mk (some true) 10 false)
      (ResNext.build [3, 4, 6, 3] 32 4 10 false false)).1 rfl
      (Block.make 64 64 32 4 1 true false false) (List.mem_cons_self _ _),
   rfl,
   (C10_use_se_override (Kwargs.mk (some false) 10 false)
      (ResNext.build [3, 4, 6, 3] 32 4 10 false true)).2.2.2.1 rfl
      (Block.make 64 64 32 4 1 true false true) (List.mem_cons_self _ _)⟩
